import Mathlib

/-!
# Verification of the excel-mcp deployment orchestrator and streaming gateway

Shallow embedding of the TypeScript sources under `src/` (runtime/orchestrator.ts,
runtime/rollback.ts, runtime/health.ts, runtime/auth-middleware.ts,
runtime/http-handler.ts, runtime/stream-handler.ts, runtime/error-handler.ts,
build/codebuild.ts) into Lean.

Modelling conventions:
* JavaScript strings are Lean `String`s; `Date.now()` / `new Date()` values are
  `Nat` timestamps threaded as explicit `now` parameters.
* A JS value that may be `undefined` is an `Option`; the JS `||` operator on
  strings (empty string is falsy) is `jsOrString` / `jsOrD`.
* `async` functions that call remote services (AWS SDK, fetch) become functions
  that take the outcome of the remote call as an explicit argument
  (`Except String α` for a call that may throw, the thrown `Error.message`
  being the `String`).  The deterministic control flow around those calls is
  translated line by line from the source.
* A thrown exception is `Except.error msg` where `msg` is the error message;
  `try/catch` becomes a `match` on the `Except`.
* "Function X is not invoked" claims are settled by having the embedded
  function additionally return the list of collaborator calls it performed.
-/

namespace ExcelMcp

/-- JS truthiness of an optional string: `undefined` and `""` are falsy. -/
def jsTruthyOpt : Option String → Bool
  | none => false
  | some s => !s.isEmpty

/-- JS `a || b` for `a b : string | undefined`. -/
def jsOrString (a b : Option String) : Option String :=
  match a with
  | some s => if s.isEmpty then b else some s
  | none => b

/-- JS `a || b` where the fallback `b` is a (truthy) string literal. -/
def jsOrD (a : Option String) (b : String) : String :=
  match a with
  | some s => if s.isEmpty then b else s
  | none => b

/-- JS template interpolation of a possibly-`undefined` string:
interpolating `undefined` produces the text `"undefined"`. -/
def jsTemplate (a : Option String) : String := a.getD "undefined"

/-- `sub` occurs at the start of `l` (character-by-character comparison). -/
def startsWithChars : List Char → List Char → Bool
  | [], _ => true
  | _ :: _, [] => false
  | a :: as, b :: bs => a == b && startsWithChars as bs

/-- `sub` occurs somewhere inside `l`. -/
def containsChars (sub : List Char) : List Char → Bool
  | [] => startsWithChars sub []
  | l@(_ :: rest) => startsWithChars sub l || containsChars sub rest

/-- JS `s.includes(sub)`: substring containment. -/
def jsIncludes (s sub : String) : Bool := containsChars sub.toList s.toList

/-- JS `s.toLowerCase()` on the ASCII strings this system compares. -/
def jsToLowerCase (s : String) : String := String.mk (s.toList.map Char.toLower)

/-- JS `s.split(' ')` (single-character space separator, keeps empty pieces). -/
def splitSpaceAux : List Char → List Char → List String
  | [], acc => [String.mk acc.reverse]
  | c :: rest, acc =>
    if c == ' ' then String.mk acc.reverse :: splitSpaceAux rest []
    else splitSpaceAux rest (c :: acc)

/-- JS `s.split(' ')`. -/
def jsSplitSpace (s : String) : List String := splitSpaceAux s.toList []

/-! ## Data model (src/types/deployment.ts, src/types/config.ts) -/

/-- The literal union `'CREATING' | 'ACTIVE' | 'FAILED' | 'UPDATING'` of
`Deployment.status`. -/
inductive LifecycleStatus
  | CREATING
  | ACTIVE
  | FAILED
  | UPDATING
  deriving DecidableEq, Repr

/-- The string rendered when a `LifecycleStatus` is interpolated into a JS
template literal. -/
def LifecycleStatus.text : LifecycleStatus → String
  | .CREATING => "CREATING"
  | .ACTIVE => "ACTIVE"
  | .FAILED => "FAILED"
  | .UPDATING => "UPDATING"

/-- `enum DeploymentStatus` from src/types/deployment.ts. -/
inductive DeploymentStatus
  | IN_PROGRESS
  | SUCCESS
  | FAILED
  | ROLLED_BACK
  deriving DecidableEq, Repr

structure DeploymentAuthConfig where
  cognitoUserPoolId : String
  cognitoClientId : String
  cognitoRegion : String
  deriving DecidableEq, Repr

structure Endpoint where
  url : String
  protocol : String
  authRequired : Bool
  deriving DecidableEq, Repr

structure Deployment where
  id : String
  status : LifecycleStatus
  imageUri : String
  authConfig : DeploymentAuthConfig
  endpoint : Option Endpoint
  createdAt : Nat
  updatedAt : Nat
  deriving DecidableEq, Repr

structure DeploymentError where
  code : String
  message : String
  phase : String
  deriving DecidableEq, Repr

structure ResourceInfo where
  buildId : Option String := none
  imageUri : Option String := none
  cognitoUserPoolId : Option String := none
  cognitoClientId : Option String := none
  endpointUrl : Option String := none
  deriving DecidableEq, Repr

structure DeploymentResult where
  success : Bool
  endpoint : Option Endpoint
  authConfig : Option DeploymentAuthConfig
  error : Option DeploymentError
  resourceInfo : Option ResourceInfo
  deriving DecidableEq, Repr

structure HealthStatus where
  healthy : Bool
  message : Option String
  timestamp : Nat
  deriving DecidableEq, Repr

structure ProjectConfig where
  name : String
  region : String
  deriving DecidableEq, Repr

structure ServerConfig where
  command : String
  args : List String
  transport : String
  environment : List (String × String)
  port : Option Nat
  deriving DecidableEq, Repr

structure BuildConfig where
  codebuildProject : String
  ecrRepository : String
  imageTag : Option String
  buildTimeout : Option Nat
  deriving DecidableEq, Repr

structure AuthConfig where
  cognitoUserPoolId : Option String
  cognitoClientId : Option String
  cognitoRegion : Option String
  deriving DecidableEq, Repr

structure Config where
  version : String
  project : ProjectConfig
  server : ServerConfig
  build : BuildConfig
  auth : AuthConfig
  deriving DecidableEq, Repr

/-! ## Result construction (src/runtime/results.ts)

`createDeploymentResult(success, endpoint?, authConfig?, resourceInfo?, errorMessage?)`.
The TS call sites pass possibly-`undefined` endpoints through non-null
assertions (`deployment.endpoint!`), which are runtime no-ops, so the optional
parameters are `Option`s here. -/

def createDeploymentResult (success : Bool) (endpoint : Option Endpoint)
    (authConfig : Option DeploymentAuthConfig) (resourceInfo : Option ResourceInfo)
    (errorMessage : Option String) : DeploymentResult :=
  { success := success
    endpoint := endpoint
    authConfig := authConfig
    error :=
      -- `if (!success && errorMessage)` — an empty message is falsy in JS
      if !success && jsTruthyOpt errorMessage then
        some { code := "DEPLOYMENT_FAILED", message := errorMessage.getD "", phase := "DEPLOYING" }
      else none
    resourceInfo := resourceInfo }

def createSuccessResult (endpoint : Option Endpoint) (authConfig : DeploymentAuthConfig)
    (resourceInfo : ResourceInfo) : DeploymentResult :=
  createDeploymentResult true endpoint (some authConfig) (some resourceInfo) none

def createFailureResult (errorMessage : String) (resourceInfo : Option ResourceInfo) :
    DeploymentResult :=
  createDeploymentResult false none none resourceInfo (some errorMessage)

/-! ## Rollback (src/runtime/rollback.ts) -/

structure RollbackResult where
  success : Bool
  message : String
  cleanedResources : List String
  restoredVersion : Option String := none
  deriving DecidableEq, Repr

structure DeploymentHistory where
  deploymentId : String
  imageUri : String
  timestamp : Nat
  status : DeploymentStatus
  deriving DecidableEq, Repr

def isDeploymentFailed (deployment : Deployment) : Bool :=
  deployment.status == LifecycleStatus.FAILED

/-- The resource list produced by `cleanupFailedDeployment` (its try-block
appends exactly these two entries; the simulated cleanup cannot throw). -/
def cleanupFailedDeployment (deploymentId : String) : List String :=
  ["Deployment " ++ deploymentId, "Associated runtime resources"]

/-- Source stub: `getPreviousStableVersion` always returns `null`. -/
def getPreviousStableVersion (_projectName : String) : Option DeploymentHistory := none

/-- `restorePreviousVersion` builds the restored deployment record. -/
def restorePreviousVersion (now : Nat) (previousVersion : DeploymentHistory) : Deployment :=
  { id := previousVersion.deploymentId ++ "-restored"
    status := .ACTIVE
    imageUri := previousVersion.imageUri
    authConfig :=
      { cognitoUserPoolId := "restored-pool-id"
        cognitoClientId := "restored-client-id"
        cognitoRegion := "us-east-1" }
    endpoint := none
    createdAt := now
    updatedAt := now }

/-- A collaborator call performed by `rollbackDeployment`, recorded so that
"no cleanup / restoration is performed" claims are expressible. -/
inductive RollbackCall
  | cleanup (deploymentId : String)
  | historyLookup (projectName : String)
  | restore (previousVersion : DeploymentHistory)
  deriving DecidableEq, Repr

/-- Outcomes of the rollback manager's remote collaborators: the history
lookup (stub: `getPreviousStableVersion`) and the redeploy of a previous
version (`restorePreviousVersion`, whose failure the source catches). -/
structure RollbackEnv where
  history : String → Option DeploymentHistory
  restoreOutcome : DeploymentHistory → Except String Deployment

/-- Collaborator outcomes matching the source stubs at time `now`. -/
def defaultRollbackEnv (now : Nat) : RollbackEnv :=
  { history := getPreviousStableVersion
    restoreOutcome := fun v => Except.ok (restorePreviousVersion now v) }

/-- `rollbackDeployment(failedDeployment, projectName)`; the second component
records the collaborator calls performed. -/
def rollbackDeployment (env : RollbackEnv) (failedDeployment : Deployment)
    (projectName : String) : RollbackResult × List RollbackCall :=
  if !isDeploymentFailed failedDeployment then
    ({ success := false
       message := "Deployment has not failed, rollback not needed"
       cleanedResources := [] }, [])
  else
    let cleanedResources := cleanupFailedDeployment failedDeployment.id
    let calls := [RollbackCall.cleanup failedDeployment.id,
                  RollbackCall.historyLookup projectName]
    match env.history projectName with
    | none =>
      ({ success := true
         message := "Failed deployment cleaned up. No previous version to restore."
         cleanedResources := cleanedResources }, calls)
    | some previousVersion =>
      match env.restoreOutcome previousVersion with
      | Except.ok restoredDeployment =>
        ({ success := true
           message := "Successfully rolled back to previous stable version"
           cleanedResources := cleanedResources
           restoredVersion := some restoredDeployment.id },
         calls ++ [RollbackCall.restore previousVersion])
      | Except.error msg =>
        ({ success := false
           message := "Cleanup completed but restoration failed: " ++ msg
           cleanedResources := cleanedResources },
         calls ++ [RollbackCall.restore previousVersion])

/-! ## Health verification (src/runtime/health.ts) -/

/-- Source stub of `performHealthCheck`: unhealthy when no endpoint URL is
available, otherwise the simulated probe reports healthy. -/
def performHealthCheck (now : Nat) (_deploymentId : String)
    (endpointUrl : Option String) : HealthStatus :=
  match endpointUrl with
  | none =>
    { healthy := false
      message := some "No endpoint URL available for health check"
      timestamp := now }
  | some _ =>
    { healthy := true
      message := some "Service is healthy"
      timestamp := now }

def generateEndpointUrl (deploymentId region : String) : String :=
  "https://" ++ deploymentId ++ ".agentcore-runtime." ++ region ++ ".amazonaws.com"

/-- `createEndpoint` throws unless the deployment is ACTIVE. -/
def createEndpoint (deployment : Deployment) (region : String) : Except String Endpoint :=
  if deployment.status != LifecycleStatus.ACTIVE then
    Except.error ("Cannot create endpoint for deployment in " ++
      deployment.status.text ++ " state. Deployment must be ACTIVE.")
  else
    Except.ok
      { url := generateEndpointUrl deployment.id region
        protocol := "streamable-http"
        authRequired := true }

structure AccessibilityCheck where
  accessible : Bool
  message : String
  deriving DecidableEq, Repr

/-- Source stub of `verifyEndpointAccessibility`: the simulated probe always
reports the endpoint accessible. -/
def verifyEndpointAccessibility (_endpoint : Endpoint) : AccessibilityCheck :=
  { accessible := true, message := "Endpoint is accessible and responding" }

/-- The two remote probes used by `verifyDeployment`: the liveness probe
(`performHealthCheck`) and the accessibility probe
(`verifyEndpointAccessibility`). -/
structure HealthProbes where
  healthCheck : String → Option String → HealthStatus
  accessCheck : Endpoint → AccessibilityCheck

/-- Probe outcomes matching the source stubs at time `now`. -/
def defaultProbes (now : Nat) : HealthProbes :=
  { healthCheck := performHealthCheck now
    accessCheck := verifyEndpointAccessibility }

structure VerificationResult where
  healthy : Bool
  endpoint : Option Endpoint
  healthStatus : HealthStatus
  accessibilityCheck : Option AccessibilityCheck
  deriving DecidableEq, Repr

/-- `verifyDeployment(deployment, region)`; `Except.error` is the propagation
of an exception thrown by `createEndpoint`. -/
def verifyDeployment (probes : HealthProbes) (deployment : Deployment)
    (region : String) : Except String VerificationResult :=
  let healthStatus := probes.healthCheck deployment.id (deployment.endpoint.map Endpoint.url)
  if !healthStatus.healthy then
    Except.ok
      { healthy := false
        endpoint := none
        healthStatus := healthStatus
        accessibilityCheck := none }
  else
    (match deployment.endpoint with
     | some e => Except.ok e
     | none => createEndpoint deployment region).bind fun endpoint =>
      let accessibilityCheck := probes.accessCheck endpoint
      Except.ok
        { healthy := healthStatus.healthy && accessibilityCheck.accessible
          endpoint := some endpoint
          healthStatus := healthStatus
          accessibilityCheck := some accessibilityCheck }

/-! ## Orchestrator (src/runtime/orchestrator.ts, `orchestrateDeployment`) -/

structure OrchestrationOptions where
  imageUri : String
  config : Config
  verbose : Bool
  deriving Repr

structure DeploymentConfig where
  imageUri : String
  authConfig : DeploymentAuthConfig
  projectName : String
  region : String
  serverConfig : ServerConfig
  deriving Repr

/-- Step 1 of `orchestrateDeployment`: prepare the deployment configuration.
The TS non-null assertions `config.auth.cognitoUserPoolId!` are runtime no-ops;
an `undefined` value flows on and is only ever tested for truthiness, which
`""` models. -/
def buildDeploymentConfig (options : OrchestrationOptions) : DeploymentConfig :=
  { imageUri := options.imageUri
    authConfig :=
      { cognitoUserPoolId := (options.config.auth.cognitoUserPoolId).getD ""
        cognitoClientId := (options.config.auth.cognitoClientId).getD ""
        cognitoRegion := jsOrD options.config.auth.cognitoRegion options.config.project.region }
    projectName := options.config.project.name
    region := options.config.project.region
    serverConfig := options.config.server }

/-- Outcomes of the orchestrator's remote collaborators: `deployToRuntime`,
`waitForDeployment`, the health probes used by `verifyDeployment`,
`saveDeploymentToHistory`, and the rollback manager's collaborators. -/
structure OrchestratorEnv where
  deployOutcome : DeploymentConfig → Except String Deployment
  waitOutcome : String → Except String Deployment
  probes : HealthProbes
  saveOutcome : Deployment → String → Except String Unit
  rollbackEnv : RollbackEnv

/-- The `try` block of `orchestrateDeployment` (steps 1-6): any
`Except.error` is an exception reaching the `catch` handler. -/
def orchestrateTryBlock (env : OrchestratorEnv) (options : OrchestrationOptions) :
    Except String DeploymentResult := do
  -- Step 1: prepare deployment configuration
  let deploymentConfig := buildDeploymentConfig options
  -- Step 2: deploy to runtime
  let deployment ← env.deployOutcome deploymentConfig
  -- Step 3: wait for deployment to complete
  let deployment ← env.waitOutcome deployment.id
  if deployment.status == LifecycleStatus.FAILED then
    throw "Deployment failed during runtime initialization"
  else
    -- Step 4: verify deployment health and create endpoint
    let verification ← verifyDeployment env.probes deployment options.config.project.region
    if !verification.healthy then
      throw ("Deployment health check failed: " ++ jsTemplate verification.healthStatus.message)
    else
      let deployment :=
        if verification.endpoint.isSome then
          { deployment with endpoint := verification.endpoint }
        else deployment
      -- Step 5: save successful deployment to history
      let _ ← env.saveOutcome deployment options.config.project.name
      -- Step 6: generate success result
      let resourceInfo : ResourceInfo :=
        { buildId := some options.config.build.codebuildProject
          imageUri := some options.imageUri
          cognitoUserPoolId := some deploymentConfig.authConfig.cognitoUserPoolId
          cognitoClientId := some deploymentConfig.authConfig.cognitoClientId
          endpointUrl := deployment.endpoint.map Endpoint.url }
      pure (createSuccessResult deployment.endpoint deploymentConfig.authConfig resourceInfo)

structure OrchestrationOutcome where
  result : DeploymentResult
  rollbackAttempt : Option (Deployment × RollbackResult × List RollbackCall)

/-- `orchestrateDeployment(options)` with the `catch` handler: on any failure
it synthesizes a FAILED deployment record (`id = "failed-" + Date.now()`),
delegates to `rollbackDeployment`, and returns `createFailureResult` with the
original error message.  The returned `rollbackAttempt` records which
deployment record was handed to the rollback manager and what it did.  The
function is total: a run never raises. -/
def orchestrateDeployment (env : OrchestratorEnv) (now : Nat)
    (options : OrchestrationOptions) : OrchestrationOutcome :=
  match orchestrateTryBlock env options with
  | Except.ok result => { result := result, rollbackAttempt := none }
  | Except.error errorMessage =>
    let failedDeployment : Deployment :=
      { id := "failed-" ++ toString now
        status := .FAILED
        imageUri := options.imageUri
        authConfig :=
          { cognitoUserPoolId := (options.config.auth.cognitoUserPoolId).getD ""
            cognitoClientId := (options.config.auth.cognitoClientId).getD ""
            cognitoRegion := jsOrD options.config.auth.cognitoRegion options.config.project.region }
        endpoint := none
        createdAt := now
        updatedAt := now }
    let rb := rollbackDeployment env.rollbackEnv failedDeployment options.config.project.name
    { result :=
        createFailureResult errorMessage
          (some { buildId := some options.config.build.codebuildProject
                  imageUri := some options.imageUri })
      rollbackAttempt := some (failedDeployment, rb.1, rb.2) }

/-! ## Transmission error handler (src/runtime/error-handler.ts) -/

/-- `enum ErrorCategory` (src/types/errors.ts). -/
inductive ErrorCategory
  | CONFIG_ERROR
  | BUILD_ERROR
  | AUTH_ERROR
  | DEPLOYMENT_ERROR
  | RUNTIME_ERROR
  deriving DecidableEq, Repr

structure CategorizedError where
  category : ErrorCategory
  code : String
  message : String
  details : Option String
  originalError : String
  deriving DecidableEq, Repr

/-- `TransmissionErrorHandler.categorizeError`, applied to the thrown error's
message. -/
def categorizeError (errMessage : String) : CategorizedError :=
  let message := jsToLowerCase errMessage
  if jsIncludes message "network" || jsIncludes message "connection" ||
     jsIncludes message "timeout" || jsIncludes message "econnrefused" then
    { category := .RUNTIME_ERROR, code := "TRANSMISSION_001"
      message := "Network connection error"
      details := some errMessage, originalError := errMessage }
  else if jsIncludes message "stream" || jsIncludes message "pipe" ||
          jsIncludes message "closed" then
    { category := .RUNTIME_ERROR, code := "TRANSMISSION_002"
      message := "Stream transmission error"
      details := some errMessage, originalError := errMessage }
  else if jsIncludes message "unauthorized" || jsIncludes message "forbidden" ||
          jsIncludes message "token" then
    { category := .AUTH_ERROR, code := "TRANSMISSION_003"
      message := "Authentication error during transmission"
      details := some errMessage, originalError := errMessage }
  else if jsIncludes message "mcp" || jsIncludes message "server" then
    { category := .RUNTIME_ERROR, code := "TRANSMISSION_004"
      message := "MCP server error"
      details := some errMessage, originalError := errMessage }
  else
    { category := .RUNTIME_ERROR, code := "TRANSMISSION_000"
      message := "Transmission error"
      details := some errMessage, originalError := errMessage }

/-- `TransmissionErrorHandler.getStatusCode`. -/
def getStatusCode (error : CategorizedError) : Nat :=
  match error.category with
  | .AUTH_ERROR => 401
  | .CONFIG_ERROR => 400
  | .RUNTIME_ERROR =>
    if error.code == "TRANSMISSION_001" then 503
    else if error.code == "TRANSMISSION_002" then 500
    else 500
  | _ => 500

/-- `TransmissionErrorHandler.getSuggestions`. -/
def getSuggestions (error : CategorizedError) : List String :=
  if error.code == "TRANSMISSION_001" then
    ["Check if the MCP server is running and accessible",
     "Verify network connectivity",
     "Check firewall settings",
     "Retry the request after a short delay"]
  else if error.code == "TRANSMISSION_002" then
    ["The connection was interrupted during transmission",
     "Retry the request",
     "Check for network stability issues"]
  else if error.code == "TRANSMISSION_003" then
    ["Verify your authentication token is valid",
     "Obtain a new token if the current one has expired",
     "Check that you have permission to access this resource"]
  else if error.code == "TRANSMISSION_004" then
    ["The MCP server encountered an error",
     "Check MCP server logs for details",
     "Verify the request format is correct",
     "Contact the server administrator if the problem persists"]
  else
    ["An unexpected error occurred during transmission",
     "Retry the request",
     "Contact support if the problem persists"]

/-! ## Stream chunks (src/types/mcp.ts, src/runtime/stream-handler.ts) -/

/-- The discriminant of `StreamChunk.type`; the source tag `'end'` is a Lean
keyword and is spelled `fin` here. -/
inductive ChunkType
  | data
  | error
  | fin
  deriving DecidableEq, Repr

inductive ChunkPayload
  | nullPayload
  | text (s : String)
  | errObj (message : String)
  deriving DecidableEq, Repr

structure StreamChunk where
  type : ChunkType
  payload : ChunkPayload
  timestamp : Nat
  deriving DecidableEq, Repr

/-- `chunk.type === 'end' || chunk.type === 'error'` — the test used by
`createChunkedBody` to decide when to close the client stream. -/
def isTerminalChunk (c : StreamChunk) : Bool :=
  c.type == ChunkType.fin || c.type == ChunkType.error

/-- How a finite upstream response body terminates: the reader reports `done`,
or a read throws with the given message. -/
inductive BodyEnding
  | done
  | errored (message : String)
  deriving DecidableEq, Repr

/-- A finite, terminating upstream response body: the sequence of decoded data
chunks the reader yields, then its ending. -/
structure UpstreamBody where
  chunks : List String
  ending : BodyEnding
  deriving DecidableEq, Repr

/-- A fetch `Response` from the MCP server. -/
structure UpstreamResponse where
  status : Nat
  statusText : String
  ok : Bool
  body : Option UpstreamBody
  deriving DecidableEq, Repr

/-- The read loop of `StreamHandler.streamResponse`: each read yields a data
chunk; `done` yields the `end` chunk; a throwing read is caught and yields an
`error` chunk. -/
def streamLoop (now : Nat) : List String → BodyEnding → List StreamChunk
  | [], .done => [{ type := .fin, payload := .nullPayload, timestamp := now }]
  | [], .errored m => [{ type := .error, payload := .errObj m, timestamp := now }]
  | s :: rest, e =>
    { type := .data, payload := .text s, timestamp := now } :: streamLoop now rest e

/-- `StreamHandler.streamResponse(request, mcpResponse)`: the full chunk
sequence produced by the async generator for a finite upstream body. -/
def streamResponse (now : Nat) (body : Option UpstreamBody) : List StreamChunk :=
  match body with
  | none => [{ type := .error, payload := .errObj "No response body", timestamp := now }]
  | some b => streamLoop now b.chunks b.ending

/-- `StreamHandler.createChunkedBody(chunks)`: the sequence of chunks enqueued
on the client `ReadableStream` (serialization of each chunk to
`JSON.stringify(chunk) + '\n'` bytes is abstracted to the chunk itself); the
controller is closed immediately after the first terminal chunk, ending the
emission. -/
def createChunkedBody : List StreamChunk → List StreamChunk
  | [] => []
  | c :: rest => if isTerminalChunk c then [c] else c :: createChunkedBody rest

/-! ## HTTP types and auth middleware (src/types/http.ts, src/runtime/auth-middleware.ts) -/

structure MCPRequest where
  jsonrpc : String
  method : String
  params : Option String
  id : String
  deriving DecidableEq, Repr

/-- The body of a `StreamableResponse`, kept semantic (JSON serialization is
not modelled): the unauthorized envelope built by
`createUnauthorizedResponse`, the categorized-error envelope built by
`createErrorResponse`, or the pass-through stream of
`createStreamingResponse`. -/
inductive ResponseBody
  | unauthorizedEnvelope (details : String)
  | errorEnvelope (error : CategorizedError) (suggestions : List String) (timestamp : Nat)
  | stream (upstream : UpstreamBody)
  deriving DecidableEq, Repr

structure StreamableResponse where
  status : Nat
  headers : List (String × String)
  body : ResponseBody
  deriving DecidableEq, Repr

structure TokenValidationResult where
  valid : Bool
  userId : Option String
  error : Option String
  deriving DecidableEq, Repr

/-- An incoming gateway request.  Headers are the exact key/value map handed
to the handler; `body` is the outcome of `parseMCPRequest` on the raw body
(`Except.error` when `JSON.parse` throws). -/
structure IncomingRequest where
  method : String
  url : String
  headers : List (String × String)
  body : Except String MCPRequest

/-- JS object property access on the headers record. -/
def lookupHeader (headers : List (String × String)) (key : String) : Option String :=
  headers.lookup key

/-- The value of `headers['authorization'] || headers['Authorization']`. -/
def effectiveAuthHeader (headers : List (String × String)) : Option String :=
  jsOrString (lookupHeader headers "authorization") (lookupHeader headers "Authorization")

/-- `AuthMiddleware.extractToken(headers)`. -/
def extractToken (headers : List (String × String)) : Option String :=
  match effectiveAuthHeader headers with
  | none => none
  | some authHeader =>
    if authHeader.isEmpty then none
    else
      -- `parts = authHeader.split(' '); parts.length !== 2 || parts[0] !== 'Bearer'`
      match jsSplitSpace authHeader with
      | [scheme, token] => if scheme == "Bearer" then some token else none
      | _ => none

/-- `AuthMiddleware.validateRequest(headers)`; the Cognito `validateToken`
call is the remote collaborator `validateTokenOutcome`. -/
def validateRequest (validateTokenOutcome : String → TokenValidationResult)
    (headers : List (String × String)) : TokenValidationResult :=
  match extractToken headers with
  | none =>
    { valid := false, userId := none, error := some "Missing or invalid Authorization header" }
  | some token => validateTokenOutcome token

/-- `AuthMiddleware.createUnauthorizedResponse(error)`. -/
def createUnauthorizedResponse (error : String) : StreamableResponse :=
  { status := 401
    headers := [("Content-Type", "application/json"), ("WWW-Authenticate", "Bearer")]
    body := ResponseBody.unauthorizedEnvelope error }

/-- `TransmissionErrorHandler.createErrorResponse(error)`. -/
def createErrorResponse (now : Nat) (error : CategorizedError) : StreamableResponse :=
  { status := getStatusCode error
    headers := [("Content-Type", "application/json"), ("Cache-Control", "no-cache")]
    body := ResponseBody.errorEnvelope error (getSuggestions error) now }

/-- `TransmissionErrorHandler.withErrorHandling(operation)`: the operation's
outcome is either passed through or converted to a categorized error
response; a thrown error never propagates. -/
def withErrorHandling {T : Type} (now : Nat) (operation : Except String T) :
    T ⊕ StreamableResponse :=
  match operation with
  | Except.ok v => Sum.inl v
  | Except.error m => Sum.inr (createErrorResponse now (categorizeError m))

/-! ## HTTP handler (src/runtime/http-handler.ts, src/runtime/stream-handler.ts) -/

/-- `StreamHandler.createStreamingResponse(mcpResponse)`: throws when the
upstream body is null, otherwise wraps the pass-through stream. -/
def createStreamingResponse (mcpResponse : UpstreamResponse) :
    Except String StreamableResponse :=
  match mcpResponse.body with
  | none => Except.error "Response body is null"
  | some b =>
    Except.ok
      { status := mcpResponse.status
        headers := [("Content-Type", "application/json"),
                    ("Transfer-Encoding", "chunked"),
                    ("Cache-Control", "no-cache"),
                    ("Connection", "keep-alive")]
        body := ResponseBody.stream b }

/-- Outcomes of the gateway's remote collaborators: Cognito token validation
and `MCPConnector.forwardRequest` (whose thrown errors, including the
non-`ok`-status throw, are `Except.error`). -/
structure GatewayEnv where
  validateTokenOutcome : String → TokenValidationResult
  forwardOutcome : MCPRequest → Except String UpstreamResponse

/-- The body of `StreamableHttpHandler.handleRequest` inside
`withErrorHandling`; the second component records whether
`forwardRequest` was invoked. -/
def handleRequestCore (env : GatewayEnv) (request : IncomingRequest) :
    Except String StreamableResponse × Bool :=
  let validationResult := validateRequest env.validateTokenOutcome request.headers
  if !validationResult.valid then
    (Except.ok (createUnauthorizedResponse (jsOrD validationResult.error "Invalid token")), false)
  else
    match request.body with
    | Except.error m => (Except.error m, false)
    | Except.ok mcpRequest =>
      match env.forwardOutcome mcpRequest with
      | Except.error m => (Except.error m, true)
      | Except.ok mcpResponse =>
        match createStreamingResponse mcpResponse with
        | Except.error m => (Except.error m, true)
        | Except.ok streamingResponse => (Except.ok streamingResponse, true)

/-- `StreamableHttpHandler.handleRequest(request)`: the response returned to
the client together with whether the backend was invoked. -/
def handleRequest (env : GatewayEnv) (now : Nat) (request : IncomingRequest) :
    StreamableResponse × Bool :=
  let core := handleRequestCore env request
  (match withErrorHandling now core.1 with
   | Sum.inl response => response
   | Sum.inr response => response,
   core.2)

/-! ## Build monitor (src/build/codebuild.ts) -/

/-- An entry of the AWS `Build.phases` array. -/
structure BuildPhaseRecord where
  phaseType : Option String
  phaseStatus : Option String
  deriving DecidableEq, Repr

/-- The fields of the AWS `Build` object read by `buildToBuildProgress`. -/
structure AwsBuild where
  id : Option String
  currentPhase : Option String
  buildStatus : Option String
  buildComplete : Bool
  phases : List BuildPhaseRecord
  deriving DecidableEq, Repr

structure BuildProgress where
  phase : String
  status : String
  percentage : Nat
  message : String
  deriving DecidableEq, Repr

/-- `getPhaseMessage(phase, status)`. -/
def getPhaseMessage (phase : String) (status : Option String) : String :=
  if phase == "SUBMITTED" then "Build submitted"
  else if phase == "QUEUED" then "Build queued"
  else if phase == "PROVISIONING" then "Provisioning build environment"
  else if phase == "DOWNLOAD_SOURCE" then "Downloading source"
  else if phase == "INSTALL" then "Installing dependencies"
  else if phase == "PRE_BUILD" then "Running pre-build commands"
  else if phase == "BUILD" then "Building container image"
  else if phase == "POST_BUILD" then "Pushing image to ECR"
  else if phase == "UPLOAD_ARTIFACTS" then "Uploading artifacts"
  else if phase == "FINALIZING" then "Finalizing build"
  else if phase == "COMPLETED" then
    (if status == some "SUCCEEDED" then "Build completed successfully" else "Build failed")
  else "Build phase: " ++ phase

/-- `buildToBuildProgress(build)`.  The source computes
`Math.floor((completedPhases / totalPhases) * 100)` with `totalPhases = 5`;
on the relevant range this equals natural division `completedPhases * 100 / 5`. -/
def buildToBuildProgress (build : AwsBuild) : BuildProgress :=
  let currentPhase := jsOrD build.currentPhase "SUBMITTED"
  let totalPhases := 5
  let completedPhases :=
    (build.phases.filter (fun p => p.phaseStatus == some "SUCCEEDED")).length
  let percentage := completedPhases * 100 / totalPhases
  { phase := currentPhase
    status := jsOrD build.buildStatus "IN_PROGRESS"
    percentage := percentage
    message := getPhaseMessage currentPhase build.buildStatus }

/-- The spec's ordered phase list (spec.md §3, BuildJob): submitted, queued,
provisioning, downloading source, installing, pre-build, build, post-build,
uploading artifacts, finalizing, completed. -/
def specOrderedPhases : List String :=
  ["SUBMITTED", "QUEUED", "PROVISIONING", "DOWNLOAD_SOURCE", "INSTALL",
   "PRE_BUILD", "BUILD", "POST_BUILD", "UPLOAD_ARTIFACTS", "FINALIZING", "COMPLETED"]

/-- Index of a phase in an ordered phase list. -/
def phaseIndexIn (phase : String) : List String → Option Nat
  | [] => none
  | p :: ps => if p == phase then some 0 else (phaseIndexIn phase ps).map (· + 1)

/-- The percentage the spec describes for `progress` (spec.md §4.1): the
current phase's index in the fixed ordered phase list over the total number
of phases, as a percentage.  Stated from the spec's words, for comparison
with `buildToBuildProgress`. -/
def specPhasePercentage (currentPhase : String) : Option Nat :=
  (phaseIndexIn currentPhase specOrderedPhases).map
    (fun i => i * 100 / specOrderedPhases.length)

/-! ## Derived predicates and sample instantiations -/

/-- The Authorization header shapes the spec calls malformed: no header at
all (or an empty one — falsy in JS), a value that does not split into exactly
two space-separated parts, or a first part other than `Bearer`. -/
def malformedAuthHeader (headers : List (String × String)) : Bool :=
  match effectiveAuthHeader headers with
  | none => true
  | some v =>
    v.isEmpty ||
    (match jsSplitSpace v with
     | [scheme, _token] => scheme != "Bearer"
     | _ => true)

/-- The error-handler's network/connection/timeout marker family
(`econnrefused` is the fourth connection marker the classifier tests). -/
def networkErrorMarkers (message : String) : Bool :=
  let m := jsToLowerCase message
  jsIncludes m "network" || jsIncludes m "connection" ||
    jsIncludes m "timeout" || jsIncludes m "econnrefused"

/-- The error-handler's stream/pipe/closed marker family. -/
def streamErrorMarkers (message : String) : Bool :=
  let m := jsToLowerCase message
  jsIncludes m "stream" || jsIncludes m "pipe" || jsIncludes m "closed"

/-- The error-handler's unauthorized/forbidden/token marker family. -/
def authErrorMarkers (message : String) : Bool :=
  let m := jsToLowerCase message
  jsIncludes m "unauthorized" || jsIncludes m "forbidden" || jsIncludes m "token"

/-- A concrete configuration used to instantiate theorems with hypotheses. -/
def sampleConfig : Config :=
  { version := "1.0"
    project := { name := "excel-mcp", region := "us-east-1" }
    server :=
      { command := "uvx", args := ["excel-mcp-server"], transport := "streamable-http"
        environment := [], port := none }
    build :=
      { codebuildProject := "excel-mcp-build", ecrRepository := "excel-mcp"
        imageTag := none, buildTimeout := none }
    auth :=
      { cognitoUserPoolId := some "pool-1", cognitoClientId := some "client-1"
        cognitoRegion := none } }

def sampleOptions : OrchestrationOptions :=
  { imageUri := "img-uri", config := sampleConfig, verbose := false }

/-- Collaborator outcomes for a run whose deploy step throws `"boom"`. -/
def sampleFailEnv : OrchestratorEnv :=
  { deployOutcome := fun _ => Except.error "boom"
    waitOutcome := fun id => Except.error ("never polled " ++ id)
    probes := defaultProbes 0
    saveOutcome := fun _ _ => Except.ok ()
    rollbackEnv := defaultRollbackEnv 0 }

/-- Gateway collaborators for concrete instantiations: the token validator
accepts everything and the backend forward succeeds with an empty body. -/
def sampleGatewayEnv : GatewayEnv :=
  { validateTokenOutcome := fun _ => { valid := true, userId := some "user-1", error := none }
    forwardOutcome := fun _ =>
      Except.ok { status := 200, statusText := "OK", ok := true
                  body := some { chunks := [], ending := BodyEnding.done } } }

/-! ## Theorems -/

/-- C2: for every deployment whose status is not FAILED and every project
name, `rollbackDeployment` returns success=false with the "rollback not
needed" message and an empty cleaned-resource list, and performs no
collaborator calls (no cleanup, no history lookup, no restoration). -/
theorem rollbackDeployment_noop_when_not_failed
    (env : RollbackEnv) (d : Deployment) (projectName : String)
    (h : d.status ≠ LifecycleStatus.FAILED) :
    rollbackDeployment env d projectName =
      ({ success := false
         message := "Deployment has not failed, rollback not needed"
         cleanedResources := []
         restoredVersion := none }, []) := by
  simp [rollbackDeployment, isDeploymentFailed, h]

/-- Witness for C2 at a concrete CREATING deployment. -/
theorem rollbackDeployment_noop_witness :
    rollbackDeployment (defaultRollbackEnv 0)
      { id := "dep-1", status := LifecycleStatus.CREATING, imageUri := "img"
        authConfig := { cognitoUserPoolId := "p", cognitoClientId := "c", cognitoRegion := "r" }
        endpoint := none, createdAt := 0, updatedAt := 0 } "excel-mcp" =
      ({ success := false
         message := "Deployment has not failed, rollback not needed"
         cleanedResources := []
         restoredVersion := none }, []) :=
  rollbackDeployment_noop_when_not_failed (defaultRollbackEnv 0)
    { id := "dep-1", status := LifecycleStatus.CREATING, imageUri := "img"
      authConfig := { cognitoUserPoolId := "p", cognitoClientId := "c", cognitoRegion := "r" }
      endpoint := none, createdAt := 0, updatedAt := 0 } "excel-mcp" (by decide)

/-- C6 counterexample: the claimed percentage (index of the current phase in
the fixed ordered phase list over the total number of phases) disagrees with
`buildToBuildProgress` on a build whose current phase is COMPLETED but whose
`phases` array records no succeeded phase: the code yields 0, the index-based
formula yields 90. -/
theorem buildProgress_percentage_counterexample :
    (buildToBuildProgress
      { id := some "b1", currentPhase := some "COMPLETED"
        buildStatus := some "SUCCEEDED", buildComplete := true, phases := [] }).percentage = 0
    ∧ specPhasePercentage "COMPLETED" = some 90
    ∧ (0 : Nat) ≠ 90 := by
  refine ⟨rfl, by decide, by decide⟩

/-- C6 amended: the percentage computed by `buildToBuildProgress` is the
number of entries of the `phases` array whose status is SUCCEEDED, over the
hard-coded total of 5 phases, as a floored percentage; it depends only on the
`phases` array, never on the current phase's position in any ordered list. -/
theorem buildProgress_percentage_amended (build : AwsBuild) :
    (buildToBuildProgress build).percentage =
      (build.phases.filter (fun p => p.phaseStatus == some "SUCCEEDED")).length * 100 / 5
    ∧ ∀ b2 : AwsBuild, b2.phases = build.phases →
        (buildToBuildProgress b2).percentage = (buildToBuildProgress build).percentage := by
  refine ⟨rfl, ?_⟩
  intro b2 hp
  simp [buildToBuildProgress, hp]

/-- Witness for C6's amended claim: two builds sharing a `phases` array but
in different current phases get the same percentage. -/
theorem buildProgress_percentage_amended_witness :
    (buildToBuildProgress
      { id := some "b2", currentPhase := some "BUILD"
        buildStatus := none, buildComplete := false
        phases := [{ phaseType := some "SUBMITTED", phaseStatus := some "SUCCEEDED" }] }).percentage =
    (buildToBuildProgress
      { id := some "b1", currentPhase := some "COMPLETED"
        buildStatus := some "SUCCEEDED", buildComplete := true
        phases := [{ phaseType := some "SUBMITTED", phaseStatus := some "SUCCEEDED" }] }).percentage :=
  (buildProgress_percentage_amended
    { id := some "b1", currentPhase := some "COMPLETED"
      buildStatus := some "SUCCEEDED", buildComplete := true
      phases := [{ phaseType := some "SUBMITTED", phaseStatus := some "SUCCEEDED" }] }).2
    { id := some "b2", currentPhase := some "BUILD"
      buildStatus := none, buildComplete := false
      phases := [{ phaseType := some "SUBMITTED", phaseStatus := some "SUCCEEDED" }] } rfl

/-- C7 counterexample: in the SUBMITTED → BUILD → COMPLETED(success) polling
scenario, with each earlier phase recorded as SUCCEEDED once a later phase is
current, the percentage at the COMPLETED poll is 40, not 100. -/
theorem buildProgress_scenario_counterexample :
    (buildToBuildProgress
      { id := some "b", currentPhase := some "COMPLETED"
        buildStatus := some "SUCCEEDED", buildComplete := true
        phases := [{ phaseType := some "SUBMITTED", phaseStatus := some "SUCCEEDED" },
                   { phaseType := some "BUILD", phaseStatus := some "SUCCEEDED" }] }).percentage = 40
    ∧ (40 : Nat) ≠ 100 := by
  refine ⟨rfl, by decide⟩

/-- C7 amended: across the SUBMITTED → BUILD → COMPLETED(success) polls the
percentage strictly increases (0, 20, 40) but ends at 40 at the COMPLETED
poll, not 100. -/
theorem buildProgress_scenario_amended :
    (buildToBuildProgress
      { id := some "b", currentPhase := some "SUBMITTED"
        buildStatus := none, buildComplete := false, phases := [] }).percentage = 0
    ∧ (buildToBuildProgress
      { id := some "b", currentPhase := some "BUILD"
        buildStatus := none, buildComplete := false
        phases := [{ phaseType := some "SUBMITTED", phaseStatus := some "SUCCEEDED" }] }).percentage = 20
    ∧ (buildToBuildProgress
      { id := some "b", currentPhase := some "COMPLETED"
        buildStatus := some "SUCCEEDED", buildComplete := true
        phases := [{ phaseType := some "SUBMITTED", phaseStatus := some "SUCCEEDED" },
                   { phaseType := some "BUILD", phaseStatus := some "SUCCEEDED" }] }).percentage = 40
    ∧ (0 : Nat) < 20 ∧ (20 : Nat) < 40 ∧ (40 : Nat) ≠ 100 := by
  refine ⟨rfl, rfl, rfl, by decide, by decide, by decide⟩

/-- C9 counterexample: token extraction is not case-insensitive in the header
key.  A headers map whose only entry has the key `AUTHORIZATION` — equal to
`authorization` under case-insensitive comparison — and a well-formed
`Bearer tok` value yields no token. -/
theorem extractToken_case_counterexample :
    extractToken [("AUTHORIZATION", "Bearer tok")] = none
    ∧ jsToLowerCase "AUTHORIZATION" = "authorization"
    ∧ jsSplitSpace "Bearer tok" = ["Bearer", "tok"] := by
  refine ⟨rfl, by decide, rfl⟩

/-- C9 amended: `extractToken` consults exactly the two literal keys
`authorization` and `Authorization` (the second only when the first is
absent or falsy); for an entry under either of those exact keys whose value
splits as `Bearer <token>`, the token is returned. -/
theorem extractToken_exact_header_keys
    (headers : List (String × String)) (v token : String)
    (h : lookupHeader headers "authorization" = some v ∨
         (lookupHeader headers "authorization" = none ∧
          lookupHeader headers "Authorization" = some v))
    (hv : v.isEmpty = false)
    (hsplit : jsSplitSpace v = ["Bearer", token]) :
    extractToken headers = some token := by
  rcases h with h1 | ⟨h1, h2⟩
  · simp [extractToken, effectiveAuthHeader, jsOrString, h1, hv, hsplit]
  · simp [extractToken, effectiveAuthHeader, jsOrString, h1, h2, hv, hsplit]

/-- Witness for C9's amended claim at a concrete `Authorization` header. -/
theorem extractToken_exact_header_keys_witness :
    extractToken [("Authorization", "Bearer abc123")] = some "abc123" :=
  extractToken_exact_header_keys [("Authorization", "Bearer abc123")]
    "Bearer abc123" "abc123" (Or.inr ⟨rfl, rfl⟩) rfl rfl

/-- C5 counterexample: a deployment whose status is FAILED but which already
carries an endpoint is reported healthy by `verifyDeployment` under the
source probes — the health check only looks at the endpoint URL, and
`createEndpoint` (the only status guard) is skipped when an endpoint
exists. -/
theorem verifyDeployment_not_fails_closed_counterexample :
    ((verifyDeployment (defaultProbes 0)
        { id := "d0", status := LifecycleStatus.FAILED, imageUri := "img"
          authConfig := { cognitoUserPoolId := "p", cognitoClientId := "c", cognitoRegion := "r" }
          endpoint := some { url := "https://u", protocol := "streamable-http", authRequired := true }
          createdAt := 0, updatedAt := 0 } "us-east-1").toOption.map VerificationResult.healthy
      = some true)
    ∧ LifecycleStatus.FAILED ≠ LifecycleStatus.ACTIVE := by
  refine ⟨rfl, by decide⟩

/-- C5 amended: `createEndpoint` raises the invalid-state error for every
non-ACTIVE deployment; for a non-ACTIVE deployment with no pre-existing
endpoint, `verifyDeployment` never returns healthy=true (for any probe
outcomes); and whenever `verifyDeployment` returns healthy=true, the
liveness probe passed and the accessibility probe passed on the returned
endpoint.  A non-ACTIVE deployment that already carries an endpoint can
nevertheless be reported healthy (see the counterexample). -/
theorem verifyDeployment_fails_closed_amended :
    (∀ (d : Deployment) (region : String), d.status ≠ LifecycleStatus.ACTIVE →
      createEndpoint d region = Except.error ("Cannot create endpoint for deployment in " ++
        d.status.text ++ " state. Deployment must be ACTIVE."))
    ∧ (∀ (probes : HealthProbes) (d : Deployment) (region : String) (r : VerificationResult),
        d.status ≠ LifecycleStatus.ACTIVE → d.endpoint = none →
        verifyDeployment probes d region = Except.ok r → r.healthy = false)
    ∧ (∀ (probes : HealthProbes) (d : Deployment) (region : String) (r : VerificationResult),
        verifyDeployment probes d region = Except.ok r → r.healthy = true →
        (probes.healthCheck d.id (d.endpoint.map Endpoint.url)).healthy = true
        ∧ r.endpoint.map (fun e => (probes.accessCheck e).accessible) = some true) := by
  refine ⟨?_, ?_, ?_⟩
  · intro d region hd
    simp [createEndpoint, bne_iff_ne, hd]
  · intro probes d region r hd hend hok
    simp only [verifyDeployment, hend, Option.map_none'] at hok
    cases hh : (probes.healthCheck d.id none).healthy with
    | false => simp [hh] at hok; rw [← hok]
    | true => simp [hh, createEndpoint, bne_iff_ne, hd, Except.bind] at hok
  · intro probes d region r hok hhealthy
    simp only [verifyDeployment] at hok
    cases hh : (probes.healthCheck d.id (d.endpoint.map Endpoint.url)).healthy with
    | false =>
      simp [hh] at hok
      rw [← hok] at hhealthy
      simp at hhealthy
    | true =>
      refine ⟨rfl, ?_⟩
      simp only [hh, Bool.not_true] at hok
      simp only [if_neg (by simp : ¬ (false = true))] at hok
      cases hend : d.endpoint with
      | some e =>
        rw [hend] at hok
        simp only [Except.bind] at hok
        cases hok
        simpa using hhealthy
      | none =>
        rw [hend] at hok
        cases hce : createEndpoint d region with
        | error m => rw [hce] at hok; simp [Except.bind] at hok
        | ok e =>
          rw [hce] at hok
          simp only [Except.bind] at hok
          cases hok
          simpa using hhealthy

/-- Witness for C5's amended claim at concrete deployments and the source
probes. -/
theorem verifyDeployment_fails_closed_witness :
    (createEndpoint
        { id := "dF", status := LifecycleStatus.FAILED, imageUri := "img"
          authConfig := { cognitoUserPoolId := "p", cognitoClientId := "c", cognitoRegion := "r" }
          endpoint := none, createdAt := 0, updatedAt := 0 } "us-east-1" =
      Except.error "Cannot create endpoint for deployment in FAILED state. Deployment must be ACTIVE.")
    ∧ ({ healthy := false, endpoint := none
         healthStatus := { healthy := false
                           message := some "No endpoint URL available for health check"
                           timestamp := 0 }
         accessibilityCheck := none : VerificationResult }.healthy = false)
    ∧ ((defaultProbes 0).healthCheck "dA"
          ((some { url := "https://dA-url", protocol := "streamable-http"
                   authRequired := true } : Option Endpoint).map Endpoint.url) |>.healthy) = true
      ∧ ((some { url := "https://dA-url", protocol := "streamable-http"
                 authRequired := true } : Option Endpoint).map
          (fun e => ((defaultProbes 0).accessCheck e).accessible) = some true) := by
  refine ⟨verifyDeployment_fails_closed_amended.1
      { id := "dF", status := LifecycleStatus.FAILED, imageUri := "img"
        authConfig := { cognitoUserPoolId := "p", cognitoClientId := "c", cognitoRegion := "r" }
        endpoint := none, createdAt := 0, updatedAt := 0 } "us-east-1" (by decide),
    verifyDeployment_fails_closed_amended.2.1 (defaultProbes 0)
      { id := "dF2", status := LifecycleStatus.FAILED, imageUri := "img"
        authConfig := { cognitoUserPoolId := "p", cognitoClientId := "c", cognitoRegion := "r" }
        endpoint := none, createdAt := 0, updatedAt := 0 } "us-east-1" _ (by decide) rfl rfl,
    ?_⟩
  have h3 := verifyDeployment_fails_closed_amended.2.2 (defaultProbes 0)
    { id := "dA", status := LifecycleStatus.ACTIVE, imageUri := "img"
      authConfig := { cognitoUserPoolId := "p", cognitoClientId := "c", cognitoRegion := "r" }
      endpoint := some { url := "https://dA-url", protocol := "streamable-http"
                         authRequired := true }
      createdAt := 0, updatedAt := 0 } "us-east-1"
    { healthy := true
      endpoint := some { url := "https://dA-url", protocol := "streamable-http"
                         authRequired := true }
      healthStatus := { healthy := true, message := some "Service is healthy", timestamp := 0 }
      accessibilityCheck := some { accessible := true
                                   message := "Endpoint is accessible and responding" } }
    rfl rfl
  exact h3

/-- C1: whenever the orchestrator's try block (steps 2-5, or history
persistence) throws, `orchestrateDeployment` returns (never raises) a
DeploymentResult with success=false carrying the original error message, a
rollback attempt is recorded before returning, and the returned result does
not depend on the rollback collaborators' outcomes. -/
theorem orchestrateDeployment_failure_returns_failure_result
    (env : OrchestratorEnv) (now : Nat) (options : OrchestrationOptions) (msg : String)
    (h : orchestrateTryBlock env options = Except.error msg)
    (hm : msg.isEmpty = false) :
    ((orchestrateDeployment env now options).result.success = false)
    ∧ ((orchestrateDeployment env now options).result.error =
        some { code := "DEPLOYMENT_FAILED", message := msg, phase := "DEPLOYING" })
    ∧ ((orchestrateDeployment env now options).rollbackAttempt.isSome = true)
    ∧ (∀ renv : RollbackEnv,
        (orchestrateDeployment { env with rollbackEnv := renv } now options).result =
        (orchestrateDeployment env now options).result) := by
  have h2 : ∀ renv : RollbackEnv,
      orchestrateTryBlock { env with rollbackEnv := renv } options = Except.error msg :=
    fun _ => h
  refine ⟨?_, ?_, ?_, ?_⟩
  · simp [orchestrateDeployment, h, createFailureResult, createDeploymentResult]
  · simp [orchestrateDeployment, h, createFailureResult, createDeploymentResult, jsTruthyOpt, hm]
  · simp [orchestrateDeployment, h]
  · intro renv
    simp [orchestrateDeployment, h, h2]

/-- Witness for C1: a run whose deploy step throws `"boom"`. -/
theorem orchestrateDeployment_failure_witness :
    ((orchestrateDeployment sampleFailEnv 7 sampleOptions).result.success = false)
    ∧ ((orchestrateDeployment sampleFailEnv 7 sampleOptions).result.error =
        some { code := "DEPLOYMENT_FAILED", message := "boom", phase := "DEPLOYING" })
    ∧ ((orchestrateDeployment sampleFailEnv 7 sampleOptions).rollbackAttempt.isSome = true)
    ∧ ((orchestrateDeployment { sampleFailEnv with rollbackEnv := defaultRollbackEnv 3 }
          7 sampleOptions).result =
        (orchestrateDeployment sampleFailEnv 7 sampleOptions).result) :=
  have base := orchestrateDeployment_failure_returns_failure_result
    sampleFailEnv 7 sampleOptions "boom" rfl rfl
  ⟨base.1, base.2.1, base.2.2.1, base.2.2.2 (defaultRollbackEnv 3)⟩

/-- C10: on every failing run, the record handed to `rollbackDeployment` is
the freshly synthesized one — id `failed-<timestamp>`, status FAILED — so the
rollback precondition guard passes and resource cleanup is attempted for
every failure, no matter which step threw (including before any deploy
request was submitted). -/
theorem orchestrateDeployment_rollback_gets_synthesized_record
    (env : OrchestratorEnv) (now : Nat) (options : OrchestrationOptions) (msg : String)
    (h : orchestrateTryBlock env options = Except.error msg) :
    ((orchestrateDeployment env now options).rollbackAttempt.isSome = true)
    ∧ ∀ (fd : Deployment) (rbRes : RollbackResult) (calls : List RollbackCall),
        (orchestrateDeployment env now options).rollbackAttempt = some (fd, rbRes, calls) →
        fd.id = "failed-" ++ toString now
        ∧ fd.status = LifecycleStatus.FAILED
        ∧ isDeploymentFailed fd = true
        ∧ RollbackCall.cleanup fd.id ∈ calls := by
  constructor
  · simp [orchestrateDeployment, h]
  · intro fd rbRes calls hatt
    simp only [orchestrateDeployment, h] at hatt
    have hfd : fd.id = "failed-" ++ toString now ∧ fd.status = LifecycleStatus.FAILED := by
      have := hatt
      simp only [Option.some.injEq, Prod.mk.injEq] at this
      rw [← this.1]
      exact ⟨rfl, rfl⟩
    refine ⟨hfd.1, hfd.2, by simp [isDeploymentFailed, hfd.2], ?_⟩
    simp only [Option.some.injEq, Prod.mk.injEq] at hatt
    rw [← hatt.2.2, ← hatt.1]
    simp only [rollbackDeployment, isDeploymentFailed]
    split
    · simp_all [isDeploymentFailed]
    · cases hhist : env.rollbackEnv.history options.config.project.name with
      | none => simp [hhist]
      | some pv =>
        cases hres : env.rollbackEnv.restoreOutcome pv with
        | error m => simp [hhist, hres]
        | ok rd => simp [hhist, hres]

/-- Witness for C10 at the concrete failing run. -/
theorem orchestrateDeployment_rollback_witness :
    ((orchestrateDeployment sampleFailEnv 7 sampleOptions).rollbackAttempt.isSome = true)
    ∧ ("failed-7" = "failed-" ++ toString 7
       ∧ LifecycleStatus.FAILED = LifecycleStatus.FAILED
       ∧ isDeploymentFailed
           { id := "failed-7", status := LifecycleStatus.FAILED, imageUri := "img-uri"
             authConfig := { cognitoUserPoolId := "pool-1", cognitoClientId := "client-1"
                             cognitoRegion := "us-east-1" }
             endpoint := none, createdAt := 7, updatedAt := 7 } = true
       ∧ RollbackCall.cleanup "failed-7" ∈
           [RollbackCall.cleanup "failed-7", RollbackCall.historyLookup "excel-mcp"]) :=
  have base := orchestrateDeployment_rollback_gets_synthesized_record
    sampleFailEnv 7 sampleOptions "boom" rfl
  ⟨base.1,
   by
    have h2 := base.2
      { id := "failed-7", status := LifecycleStatus.FAILED, imageUri := "img-uri"
        authConfig := { cognitoUserPoolId := "pool-1", cognitoClientId := "client-1"
                        cognitoRegion := "us-east-1" }
        endpoint := none, createdAt := 7, updatedAt := 7 }
      { success := true
        message := "Failed deployment cleaned up. No previous version to restore."
        cleanedResources := ["Deployment failed-7", "Associated runtime resources"]
        restoredVersion := none }
      [RollbackCall.cleanup "failed-7", RollbackCall.historyLookup "excel-mcp"] rfl
    exact ⟨h2.1, h2.2.1 ▸ rfl, h2.2.2.1, h2.2.2.2⟩⟩

/-- Every malformed Authorization header shape (missing/falsy header, not
exactly two space-separated parts, non-`Bearer` scheme) makes `extractToken`
return no token. -/
theorem extractToken_eq_none_of_malformed (headers : List (String × String))
    (h : malformedAuthHeader headers = true) : extractToken headers = none := by
  unfold malformedAuthHeader at h
  unfold extractToken
  cases heff : effectiveAuthHeader headers with
  | none => rfl
  | some v =>
    rw [heff] at h
    by_cases he : v.isEmpty
    · simp [he]
    · simp only [he, Bool.false_or] at h
      simp only [he, if_false, Bool.false_eq_true]
      cases hsp : jsSplitSpace v with
      | nil => simp [hsp]
      | cons a tl =>
        cases tl with
        | nil => simp [hsp]
        | cons b tl2 =>
          cases tl2 with
          | nil =>
            rw [hsp] at h
            simp only [bne_iff_ne, ne_eq, decide_eq_true_eq] at h
            simp [hsp, h]
          | cons c tl3 => simp [hsp]

/-- C3: a gateway request with a missing, non-`Bearer`, or malformed
Authorization header gets a 401 response carrying `WWW-Authenticate: Bearer`,
the backend is never invoked, and all malformed shapes produce the same
validation failure. -/
theorem handleRequest_rejects_malformed_authorization
    (env : GatewayEnv) (now : Nat) (request : IncomingRequest)
    (h : malformedAuthHeader request.headers = true) :
    ((handleRequest env now request).1.status = 401)
    ∧ (lookupHeader (handleRequest env now request).1.headers "WWW-Authenticate" = some "Bearer")
    ∧ ((handleRequest env now request).2 = false)
    ∧ (validateRequest env.validateTokenOutcome request.headers =
        { valid := false, userId := none
          error := some "Missing or invalid Authorization header" }) := by
  have ht := extractToken_eq_none_of_malformed request.headers h
  have hv : validateRequest env.validateTokenOutcome request.headers =
      { valid := false, userId := none
        error := some "Missing or invalid Authorization header" } := by
    simp [validateRequest, ht]
  refine ⟨?_, ?_, ?_, hv⟩ <;>
    simp [handleRequest, handleRequestCore, hv, withErrorHandling,
      createUnauthorizedResponse, jsOrD, lookupHeader, List.lookup]

/-- Witness for C3 at a concrete request with a `Token` (non-`Bearer`)
scheme. -/
theorem handleRequest_rejects_malformed_witness :
    ((handleRequest sampleGatewayEnv 0
        { method := "POST", url := "/mcp"
          headers := [("authorization", "Token abc")]
          body := Except.error "unparsed" }).1.status = 401)
    ∧ (lookupHeader (handleRequest sampleGatewayEnv 0
        { method := "POST", url := "/mcp"
          headers := [("authorization", "Token abc")]
          body := Except.error "unparsed" }).1.headers "WWW-Authenticate" = some "Bearer")
    ∧ ((handleRequest sampleGatewayEnv 0
        { method := "POST", url := "/mcp"
          headers := [("authorization", "Token abc")]
          body := Except.error "unparsed" }).2 = false)
    ∧ (validateRequest sampleGatewayEnv.validateTokenOutcome [("authorization", "Token abc")] =
        { valid := false, userId := none
          error := some "Missing or invalid Authorization header" }) :=
  handleRequest_rejects_malformed_authorization sampleGatewayEnv 0
    { method := "POST", url := "/mcp"
      headers := [("authorization", "Token abc")]
      body := Except.error "unparsed" } (by decide)

/-- The generator loop emits all data chunks and then exactly one terminal
chunk determined by how the body ends. -/
theorem streamLoop_eq (now : Nat) (cs : List String) (e : BodyEnding) :
    streamLoop now cs e =
      (cs.map fun s =>
        { type := ChunkType.data, payload := ChunkPayload.text s, timestamp := now }) ++
      [match e with
       | BodyEnding.done =>
         { type := ChunkType.fin, payload := ChunkPayload.nullPayload, timestamp := now }
       | BodyEnding.errored m =>
         { type := ChunkType.error, payload := ChunkPayload.errObj m, timestamp := now }] := by
  induction cs with
  | nil => cases e <;> rfl
  | cons s rest ih => simp [streamLoop, ih]

/-- In the chunk sequence the client stream emits, every terminal chunk is in
final position — the stream is closed right after the first one. -/
theorem createChunkedBody_dropLast_all (chunks : List StreamChunk) :
    (createChunkedBody chunks).dropLast.all (fun c => !isTerminalChunk c) = true := by
  induction chunks with
  | nil => rfl
  | cons c rest ih =>
    by_cases hc : isTerminalChunk c
    · simp [createChunkedBody, hc]
    · cases hrec : createChunkedBody rest with
      | nil => simp [createChunkedBody, hc, hrec]
      | cons d ds =>
        rw [hrec] at ih
        simp [createChunkedBody, hc, hrec, List.dropLast, ih]

/-- C4: for every finite, terminating upstream body the chunk sequence
produced by `streamResponse` is a nonempty finite list whose unique terminal
chunk (`end` or `error`, never more than one) is its last element, and
`createChunkedBody` never emits a chunk after a terminal one. -/
theorem streamResponse_single_terminal_chunk (now : Nat) (body : Option UpstreamBody) :
    ((streamResponse now body).isEmpty = false)
    ∧ ((streamResponse now body).countP isTerminalChunk = 1)
    ∧ ((streamResponse now body).dropLast.all (fun c => !isTerminalChunk c) = true)
    ∧ ((streamResponse now body).getLast?.map isTerminalChunk = some true)
    ∧ (∀ chunks : List StreamChunk,
        (createChunkedBody chunks).dropLast.all (fun c => !isTerminalChunk c) = true) := by
  refine ⟨?_, ?_, ?_, ?_, createChunkedBody_dropLast_all⟩ <;>
  · cases body with
    | none => simp [streamResponse, isTerminalChunk]
    | some b =>
      rw [streamResponse, streamLoop_eq]
      cases hb : b.ending <;>
        simp [List.countP_append, List.countP_map, List.countP_cons, isTerminalChunk,
          List.dropLast_concat, List.getLast?_concat, List.all_map, Function.comp]

/-- C8: `withErrorHandling` never propagates a thrown error — the result is
the operation's value or a categorized error response whose status is 503
for network/connection/timeout markers, 500 for stream/pipe/closed markers,
401 for unauthorized/forbidden/token markers, and 500 otherwise, tested in
that priority order. -/
theorem withErrorHandling_status_mapping {T : Type} (now : Nat) (op : Except String T) :
    (∀ v, op = Except.ok v → withErrorHandling now op = Sum.inl v)
    ∧ (∀ m, op = Except.error m →
        withErrorHandling now op = Sum.inr (createErrorResponse now (categorizeError m))
        ∧ (createErrorResponse now (categorizeError m)).status =
            (if networkErrorMarkers m then 503
             else if streamErrorMarkers m then 500
             else if authErrorMarkers m then 401
             else 500)) := by
  constructor
  · intro v hv; rw [hv]; rfl
  · intro m hm
    refine ⟨by rw [hm]; rfl, ?_⟩
    simp only [createErrorResponse, categorizeError, networkErrorMarkers,
      streamErrorMarkers, authErrorMarkers]
    split_ifs <;> simp_all [getStatusCode]

/-- Witness for C8: a successful operation passes through; a thrown
`"network down"` becomes a 503 error response. -/
theorem withErrorHandling_status_witness :
    (withErrorHandling 0 (Except.ok 42 : Except String Nat) = Sum.inl 42)
    ∧ (withErrorHandling 0 (Except.error "network down" : Except String Unit) =
        Sum.inr (createErrorResponse 0 (categorizeError "network down")))
    ∧ ((createErrorResponse 0 (categorizeError "network down")).status = 503) :=
  ⟨(withErrorHandling_status_mapping 0 (Except.ok 42 : Except String Nat)).1 42 rfl,
   ((withErrorHandling_status_mapping 0
      (Except.error "network down" : Except String Unit)).2 "network down" rfl).1,
   by
    have h := ((withErrorHandling_status_mapping 0
      (Except.error "network down" : Except String Unit)).2 "network down" rfl).2
    rw [h]; decide⟩

end ExcelMcp
